import Mathlib

/-!
Verification of the anchor-box generation core of `ssd_keras`
(`keras_layers/keras_layer_AnchorBoxes.py`), as a shallow embedding.

Python floats are modelled by exact rationals on the validation path and by
real numbers on the generation path (where `np.sqrt` appears); Python `int`
is modelled by `ℤ`.  Dynamically typed constructor arguments are modelled by
an inductive `PyValue` type so that the `isinstance`-based validation of
`AnchorBoxes.__init__` can be reproduced faithfully, including which Python
exception class escapes (`ValueError` versus `TypeError`).
-/

/-- A Python runtime value, as far as the constructor of `AnchorBoxes`
inspects one: ints, bools (which Python treats as ints for `isinstance`),
floats, strings, lists, tuples and `None`. -/
inductive PyValue where
  | int (n : ℤ)
  | bool (b : Bool)
  | float (q : ℚ)
  | str (s : String)
  | list (xs : List PyValue)
  | tuple (xs : List PyValue)
  | pynone

/-- The Python exceptions the modelled code can raise.  `zeroDivision`
models the `ZeroDivisionError` of `img_height / feature_map_height` and
`broadcast` models the `ValueError` numpy raises when an array of the wrong
length is assigned into a tensor slice. -/
inductive PyErr where
  | valueError (msg : String)
  | typeError (msg : String)
  | zeroDivision
  | broadcast
deriving DecidableEq

/-- `isinstance(v, int)`: Python bools are ints. -/
def pyIsInt : PyValue → Bool
  | .int _ => true
  | .bool _ => true
  | _ => false

/-- `isinstance(v, float)` (bools and ints are not floats). -/
def pyIsFloat : PyValue → Bool
  | .float _ => true
  | _ => false

/-- `isinstance(v, (int, float))`. -/
def pyIsNum (v : PyValue) : Bool := pyIsInt v || pyIsFloat v

/-- `isinstance(v, (list, tuple))`. -/
def pyIsListTuple : PyValue → Bool
  | .list _ => true
  | .tuple _ => true
  | _ => false

/-- The element list of a Python list or tuple. -/
def pyItems : PyValue → Option (List PyValue)
  | .list xs => some xs
  | .tuple xs => some xs
  | _ => none

/-- `len(v)`: defined for lists, tuples and strings; any other value makes
`len` raise a `TypeError`. -/
def pyLen : PyValue → Except PyErr ℕ
  | .list xs => .ok xs.length
  | .tuple xs => .ok xs.length
  | .str s => .ok s.length
  | _ => .error (.typeError "object has no len")

/-- Python truthiness, used by the `and aspect_ratios` emptiness test. -/
def pyTruthy : PyValue → Bool
  | .int n => n ≠ 0
  | .bool b => b
  | .float q => q ≠ 0
  | .str s => s ≠ ""
  | .list xs => ¬xs.isEmpty
  | .tuple xs => ¬xs.isEmpty
  | .pynone => false

/-- The numeric value of a Python number (`True` counts as `1`); `none` for
non-numeric values. -/
def toRat : PyValue → Option ℚ
  | .int n => some (n : ℚ)
  | .bool b => some (if b then 1 else 0)
  | .float q => some q
  | _ => none

/-- A numeric numpy array: its shape and its flattened (row-major) data.
Models the result of `np.array(...)` on numeric input. -/
structure NpArray where
  shape : List ℕ
  data : List ℚ
deriving DecidableEq

/-- Stacking `n` equal-shaped arrays into one array of shape `n :: s`
(how `np.array` combines the rows of a nested list); `none` when the
shapes disagree (numpy then builds a dtype=object array, and comparing it
with `0` raises a `TypeError` under Python 3). -/
def npStack (n : ℕ) : List NpArray → Option NpArray
  | [] => some ⟨[0], []⟩
  | a :: rest =>
      if rest.all (fun b => b.shape = a.shape) then
        some ⟨n :: a.shape, ((a :: rest).map NpArray.data).flatten⟩
      else none

mutual

/-- `np.array(v)` on a Python value: a scalar number becomes a rank-0
array, a list/tuple of equal-shaped numeric values stacks them; anything
else (strings, ragged or mixed nesting) yields `none`. -/
def npOf : PyValue → Option NpArray
  | .int n => some ⟨[], [(n : ℚ)]⟩
  | .bool b => some ⟨[], [if b then 1 else 0]⟩
  | .float q => some ⟨[], [q]⟩
  | .list xs =>
      match npOfAll xs with
      | some arrs => npStack xs.length arrs
      | none => none
  | .tuple xs =>
      match npOfAll xs with
      | some arrs => npStack xs.length arrs
      | none => none
  | _ => none

/-- `npOf` on every element of a list. -/
def npOfAll : List PyValue → Option (List NpArray)
  | [] => some []
  | x :: xs =>
      match npOf x, npOfAll xs with
      | some a, some rest => some (a :: rest)
      | _, _ => none

end

/-- Whether an array of shape `s` can be broadcast against a target of
shape `t` without enlarging it (the condition for numpy `t_array += s_array`
to succeed): right-aligned, every dimension of `s` equals the corresponding
dimension of `t` or is `1`. -/
def broadcastsInto (s t : List ℕ) : Bool :=
  decide (s.length ≤ t.length) &&
    (s.reverse.zip t.reverse).all (fun p => p.1 = 1 || p.1 = p.2)

/-- The element of array `a` broadcast to position `idx` of a larger
target: the trailing coordinates of `idx` are used, coordinates along
size-1 dimensions of `a` are clamped to `0`, and the result indexes the
row-major data. -/
def npAt (a : NpArray) (idx : List ℕ) : ℚ :=
  let idx2 := idx.drop (idx.length - a.shape.length)
  let clamped := (a.shape.zip idx2).map (fun p => if p.1 = 1 then 0 else p.2)
  a.data.getD ((a.shape.zip clamped).foldl (fun acc p => acc * p.1 + p.2) 0) 0

/-- The Python test `r == 1` for an aspect-ratio entry: true exactly for
the numbers with value `1` (including `True`). -/
def isAR1 (r : PyValue) : Bool := decide (toRat r = some 1)

/-- The three recognized values of the `coords` argument. -/
inductive Coords where
  | centroids
  | corners
  | minmax
deriving DecidableEq

/-- A validated `this_steps` / `this_offsets` argument: a scalar number,
or a 2-element pair stored as-is — lines 151-156 accept any 2-element
list/tuple without inspecting its elements, so the pair components remain
raw Python values and only `call` fails on non-numeric ones. -/
inductive StepSpec where
  | scalar (v : ℚ)
  | pair (a b : PyValue)

/-- Both components of a stored step/offset are numbers (trivially true
for scalars, which are validated at construction). -/
def stepSpecNumeric : Option StepSpec → Prop
  | none => True
  | some (.scalar _) => True
  | some (.pair a b) => (toRat a).isSome ∧ (toRat b).isSome

/-- The state a successfully constructed `AnchorBoxes` layer carries
(the attributes set by `__init__`). -/
structure AnchorConfig where
  img_height : ℤ
  img_width : ℤ
  this_scale : ℚ
  next_scale : ℚ
  aspect_ratios : List PyValue
  two_boxes_for_ar1 : Bool
  this_steps : Option StepSpec
  this_offsets : Option StepSpec
  clip_boxes : Bool
  variances : NpArray
  coords : Coords
  normalize_coords : Bool

/-- The spec's well-formedness of a configuration (section 3): positive
image dimensions and scales, a non-empty list of positive scalar aspect
ratios, a flat vector of exactly 4 positive variances, and numeric
step/offset pairs.  Construction guarantees slightly less (see C9):
aspect-ratio entries and variances may be uniformly nested numeric lists,
and step/offset pair components are not inspected at all. -/
def AnchorConfig.valid (cfg : AnchorConfig) : Prop :=
  0 < cfg.img_height ∧ 0 < cfg.img_width ∧
  0 < cfg.this_scale ∧ 0 < cfg.next_scale ∧
  cfg.aspect_ratios ≠ [] ∧
  (∀ r ∈ cfg.aspect_ratios, ∃ q, toRat r = some q ∧ 0 < q) ∧
  cfg.variances.shape = [4] ∧ cfg.variances.data.length = 4 ∧
  (∀ v ∈ cfg.variances.data, 0 < v) ∧
  stepSpecNumeric cfg.this_steps ∧ stepSpecNumeric cfg.this_offsets

/-- The arity error message of the variances check, with the length that
`"...".format(len(variances))` interpolates. -/
def variancesArityMsg (n : ℕ) : String :=
  "4 variance values must be passed, but " ++ toString n ++ " values were received."

/-- The variances check of `__init__` (lines 136-144).  Mirrors Python
evaluation order: when `variances` is not a list/tuple of length 4 the raise
statement formats its message with `len(variances)`, so `len` is evaluated
before the `ValueError` exists and an unsized argument turns into a
`TypeError` instead.  A 4-element list/tuple is converted by `np.array`:
uniformly nested numeric data of any shape is accepted (and stored as the
array, line 140), while ragged or non-numeric data gives a dtype=object
array whose comparison with `0` raises a `TypeError` under Python 3. -/
def checkVariances (variances : PyValue) : Except PyErr NpArray :=
  match pyItems variances with
  | some xs =>
      if xs.length = 4 then
        match npOf variances with
        | some arr =>
            if arr.data.any (fun q => q ≤ 0) then
              .error (.valueError ("All variances must be >0, but the variances given are " ++ toString arr.data))
            else .ok arr
        | none => .error (.typeError "comparison not supported between these types")
      else
        .error (.valueError (variancesArityMsg xs.length))
  | none => do
      let n ← pyLen variances
      .error (.valueError (variancesArityMsg n))

/-- The aspect-ratio check of `__init__` (lines 128-134): a non-empty
list/tuple whose `np.array` is numeric with no entry `<= 0`.  On success
the ORIGINAL element list is stored (line 134 keeps `aspect_ratios`
itself, not the array), so uniformly nested numeric entries survive
construction. -/
def checkAspectRatios (v : PyValue) : Except PyErr (List PyValue) :=
  if ¬(pyIsListTuple v && pyTruthy v) then
    .error (.valueError "Aspect ratios must be a list or tuple and not empty")
  else
    match pyItems v with
    | some xs =>
        match npOf v with
        | some arr =>
            if arr.data.any (fun q => q ≤ 0) then
              .error (.valueError "All aspect ratios must be greater than zero.")
            else .ok xs
        | none => .error (.typeError "comparison not supported between these types")
    | none => .error (.typeError "unreachable")

/-- The `coords` check of `__init__` (lines 146-149). -/
def checkCoords (v : PyValue) : Except PyErr Coords :=
  match v with
  | .str s =>
      if s = "minmax" then .ok .minmax
      else if s = "centroids" then .ok .centroids
      else if s = "corners" then .ok .corners
      else .error (.valueError "Unexpected value for coords.")
  | _ => .error (.valueError "Unexpected value for coords.")

/-- The `this_steps` / `this_offsets` check of `__init__` (lines 151-167):
`None` passes through, otherwise the argument must be a 2-element
list/tuple or a number.  A 2-element pair is stored WITHOUT inspecting its
elements, exactly as in the source; non-numeric components only fail later
inside `call`. -/
def checkSteps (v : PyValue) : Except PyErr (Option StepSpec) :=
  match v with
  | .pynone => .ok none
  | _ =>
      match pyItems v with
      | some xs =>
          if xs.length = 2 then
            .ok (some (.pair (xs.getD 0 .pynone) (xs.getD 1 .pynone)))
          else .error (.valueError "This steps must be a 2-int/float list/tuple or a int/float")
      | none =>
          match toRat v with
          | some q => .ok (some (.scalar q))
          | none => .error (.valueError "This steps must be a 2-int/float list/tuple or a int/float")

/-- The boolean-flag checks of `__init__` (lines 169-182). -/
def checkBool (v : PyValue) (msg : String) : Except PyErr Bool :=
  match v with
  | .bool b => .ok b
  | _ => .error (.valueError msg)

/-- `AnchorBoxes.__init__` (lines 110-189), validating each argument in
source order and producing the attribute record on success.  The backend
check (line 105) is modelled as always passing (the backend is a fixed
environment constant, `tensorflow`). -/
def init (img_height img_width this_scale next_scale aspect_ratios
    two_boxes_for_ar1 this_steps this_offsets clip_boxes variances coords
    normalize_coords : PyValue) : Except PyErr AnchorConfig := do
  if ¬(pyIsInt img_height && pyIsInt img_width) then
    throw (.valueError "img_height and img_width must be float")
  let ih : ℤ := match img_height with | .int n => n | .bool b => if b then 1 else 0 | _ => 0
  let iw : ℤ := match img_width with | .int n => n | .bool b => if b then 1 else 0 | _ => 0
  if ¬(0 < ih ∧ 0 < iw) then
    throw (.valueError "img_height and img_width must be greater than 0")
  if ¬(pyIsFloat this_scale && pyIsFloat next_scale) then
    throw (.valueError "this_scale and next_scale must be float")
  let ts : ℚ := match this_scale with | .float q => q | _ => 0
  let ns : ℚ := match next_scale with | .float q => q | _ => 0
  if ¬(0 < ts ∧ 0 < ns) then
    throw (.valueError ("this_scale and next_scale must be > 0 but this_scale == "
      ++ toString ts ++ ", next_scale == " ++ toString ns))
  let ars ← checkAspectRatios aspect_ratios
  let vars ← checkVariances variances
  let co ← checkCoords coords
  let steps ← checkSteps this_steps
  let offsets ← checkSteps this_offsets
  let two ← checkBool two_boxes_for_ar1 "two_boxes_for_ar1 must be bool"
  let clip ← checkBool clip_boxes "clip_boxes must be bool"
  let norm ← checkBool normalize_coords "normalize_coords must be bool"
  return { img_height := ih, img_width := iw, this_scale := ts, next_scale := ns,
           aspect_ratios := ars, two_boxes_for_ar1 := two, this_steps := steps,
           this_offsets := offsets, clip_boxes := clip, variances := vars,
           coords := co, normalize_coords := norm }

/-- `self.n_boxes` as computed at the end of `__init__` (lines 184-188):
one extra box exactly when some entry of `aspect_ratios` compares equal to
`1` (Python `in` uses `==`, so `1`, `1.0` and `True` all count) and
`two_boxes_for_ar1` is set. -/
def nBoxes (cfg : AnchorConfig) : ℕ :=
  if cfg.aspect_ratios.any isAR1 = true ∧ cfg.two_boxes_for_ar1 = true then
    cfg.aspect_ratios.length + 1
  else
    cfg.aspect_ratios.length

/-- `init` does not produce a configuration: some exception escapes the
constructor. -/
def raises (r : Except PyErr AnchorConfig) : Prop := ∃ e, r = .error e

/-- A Python value that is a number with a positive value. -/
def isPosNum (x : PyValue) : Prop := ∃ q, toRat x = some q ∧ 0 < q

/-- A list or tuple of exactly 4 positive scalar numbers: the claimed
precondition "exactly 4 positive entries" of the spec. -/
def variancesOK (v : PyValue) : Prop :=
  ∃ xs, pyItems v = some xs ∧ xs.length = 4 ∧ ∀ x ∈ xs, isPosNum x

/-- What the constructor actually accepts for `variances`: a 4-element
list/tuple whose `np.array` conversion is numeric with all values
positive (so uniformly nested numeric lists pass as well). -/
def variancesAccepted (v : PyValue) : Prop :=
  ∃ xs arr, pyItems v = some xs ∧ xs.length = 4 ∧ npOf v = some arr ∧
    ∀ q ∈ arr.data, 0 < q

/-- A scalar number or a 2-element list/tuple: the step/offset arguments
the constructor accepts. -/
def scalarOrPair (v : PyValue) : Prop :=
  pyIsNum v = true ∨ ∃ xs, pyItems v = some xs ∧ xs.length = 2

/-- One of the three recognized `coords` strings. -/
def recognizedCoords (v : PyValue) : Prop :=
  v = .str "minmax" ∨ v = .str "centroids" ∨ v = .str "corners"

/-- A well-formed aspect-ratio argument, `[1.0, 2.0]`. -/
def argARs : PyValue := .list [.float 1, .float 2]

/-- A well-formed variances argument, `[0.1, 0.1, 0.2, 0.2]`. -/
def argVars : PyValue := .list [.float (1/10), .float (1/10), .float (1/5), .float (1/5)]

/-- The nested variances argument `[[1], [2], [3], [4]]`: its entries are
lists, not positive numbers, yet `np.array` builds a numeric (4,1) array
from it. -/
def vNested : PyValue :=
  .list [.list [.int 1], .list [.int 2], .list [.int 3], .list [.int 4]]

/-- `init` with well-formed arguments everywhere except the probed
`variances` argument. -/
def initWithVariances (v : PyValue) : Except PyErr AnchorConfig :=
  init (.int 300) (.int 300) (.float (1/5)) (.float (17/50)) argARs (.bool true)
    .pynone .pynone (.bool false) v (.str "centroids") (.bool false)

/-- `init` with well-formed arguments everywhere except the probed scale
arguments. -/
def initWithScales (s ns : PyValue) : Except PyErr AnchorConfig :=
  init (.int 300) (.int 300) s ns argARs (.bool true)
    .pynone .pynone (.bool false) argVars (.str "centroids") (.bool false)

/-- `init` with well-formed arguments everywhere except the probed
`aspect_ratios` argument. -/
def initWithARs (a : PyValue) : Except PyErr AnchorConfig :=
  init (.int 300) (.int 300) (.float (1/5)) (.float (17/50)) a (.bool true)
    .pynone .pynone (.bool false) argVars (.str "centroids") (.bool false)

/-- `init` with well-formed arguments everywhere except the probed `coords`
argument. -/
def initWithCoords (c : PyValue) : Except PyErr AnchorConfig :=
  init (.int 300) (.int 300) (.float (1/5)) (.float (17/50)) argARs (.bool true)
    .pynone .pynone (.bool false) argVars c (.bool false)

/-- `init` with well-formed arguments everywhere except the probed
`this_steps` argument. -/
def initWithSteps (st : PyValue) : Except PyErr AnchorConfig :=
  init (.int 300) (.int 300) (.float (1/5)) (.float (17/50)) argARs (.bool true)
    st .pynone (.bool false) argVars (.str "centroids") (.bool false)

/-- `init` with well-formed arguments everywhere except the probed
`this_offsets` argument. -/
def initWithOffsets (o : PyValue) : Except PyErr AnchorConfig :=
  init (.int 300) (.int 300) (.float (1/5)) (.float (17/50)) argARs (.bool true)
    .pynone o (.bool false) argVars (.str "centroids") (.bool false)

/-- The configuration `initWithVariances` produces when its variances
argument passes validation as the array `arr`. -/
def goodConfigWith (arr : NpArray) : AnchorConfig :=
  { img_height := 300, img_width := 300, this_scale := 1/5, next_scale := 17/50,
    aspect_ratios := [.float 1, .float 2], two_boxes_for_ar1 := true,
    this_steps := none, this_offsets := none, clip_boxes := false,
    variances := arr, coords := .centroids, normalize_coords := false }

/-- `np.linspace(start, stop, num)` with default `endpoint=True`, over exact
rationals: `num` evenly spaced samples over the closed interval
`[start, stop]`.  `num = 1` yields `[start]` and `num = 0` yields `[]`,
as in numpy; for `num ≥ 2` numpy writes `stop` into the last slot, which in
exact arithmetic coincides with the formula below. -/
def linspace (start stop : ℚ) (num : ℕ) : List ℚ :=
  if num = 1 then [start]
  else (List.range num).map fun (i : ℕ) => start + (i : ℚ) * ((stop - start) / ((num : ℚ) - 1))

/-- The center-point coordinates along one axis (lines 288-292):
`np.linspace(offset*step, (offset + n - 1)*step, n)`. -/
def centersFor (offset step : ℚ) (n : ℕ) : List ℚ :=
  linspace (offset * step) ((offset + (n : ℚ) - 1) * step) n

/-- The entries the loop body of lines 221-234 appends to `wh_list` for one
aspect ratio `r`: for `r == 1` the regular box and, when
`two_boxes_for_ar1`, the geometric-mean box right after it; otherwise one
box of width `this_scale*size*sqrt(r)` and height `this_scale*size/sqrt(r)`,
where `size = min(img_height, img_width)`.  A non-numeric entry (possible
only for nested aspect_ratios, which construction lets through) also
contributes exactly one appended entry in Python, but with array-valued
width/height; the model records a placeholder pair for it — faithful in
count, not in value — and `call` rejects such configurations at the slice
assignment (see there). -/
noncomputable def whEntry (cfg : AnchorConfig) (r : PyValue) : List (ℝ × ℝ) :=
  let size : ℝ := ((min cfg.img_height cfg.img_width : ℤ) : ℝ)
  let s : ℝ := (cfg.this_scale : ℝ)
  let ns : ℝ := (cfg.next_scale : ℝ)
  match toRat r with
  | some q =>
      if q = 1 then
        (s * size, s * size) ::
          (if cfg.two_boxes_for_ar1 then
            [(Real.sqrt (s * ns) * size, Real.sqrt (s * ns) * size)]
          else [])
      else
        [(s * size * Real.sqrt ((q : ℝ)), s * size / Real.sqrt ((q : ℝ)))]
  | none => [(0, 0)]

/-- Step 1 of `call` (lines 216-236): the ordered `wh_list` of
`(box_width, box_height)` pairs, one group of entries per aspect ratio in
order. -/
noncomputable def whList (cfg : AnchorConfig) : List (ℝ × ℝ) :=
  cfg.aspect_ratios.flatMap (whEntry cfg)

/-- Step 2 of `call` (lines 255-268): the `(step_height, step_width)` pair.
When `this_steps` is `None` this divides the image size by the grid size,
which in Python raises `ZeroDivisionError` on an empty grid.  A stored pair
with a non-numeric component makes Python raise a `TypeError` slightly
later, at the `offset * step` arithmetic of the `np.linspace` call
(line 288); the model raises that `TypeError` when extracting the pair. -/
def stepSizes (cfg : AnchorConfig) (feature_map_height feature_map_width : ℕ) :
    Except PyErr (ℚ × ℚ) :=
  match cfg.this_steps with
  | none =>
      if feature_map_height = 0 ∨ feature_map_width = 0 then .error .zeroDivision
      else .ok ((cfg.img_height : ℚ) / (feature_map_height : ℚ),
                (cfg.img_width : ℚ) / (feature_map_width : ℚ))
  | some (.pair a b) =>
      match toRat a, toRat b with
      | some x, some y => .ok (x, y)
      | _, _ => .error (.typeError "unsupported operand type for multiply")
  | some (.scalar s) => .ok (s, s)

/-- Step 3 of `call` (lines 272-282): the `(offset_height, offset_width)`
pair, defaulting to `(0.5, 0.5)`.  Non-numeric pair components (which make
Python raise a `TypeError` at the line-288 arithmetic; `call` models that
with its `offsetsNumeric` gate) are read as `0` here so that the
extraction itself stays total. -/
def offsetVals (cfg : AnchorConfig) : ℚ × ℚ :=
  match cfg.this_offsets with
  | none => (1/2, 1/2)
  | some (.pair a b) => ((toRat a).getD 0, (toRat b).getD 0)
  | some (.scalar s) => (s, s)

/-- One 4-channel cell of the boxes tensor. -/
structure Box where
  c0 : ℝ
  c1 : ℝ
  c2 : ℝ
  c3 : ℝ

/-- Modelled from the spec: `convert_coordinates(..., conversion='centroids2corners')`
from the module `bounding_box_utils.bounding_box_utils`, which is not part of
the source under study.  Per spec section 4.1, `centroids` is
`(cx, cy, w, h)` and `corners` is `(xmin, ymin, xmax, ymax)`, so the corner
coordinates are the center plus/minus half the size. -/
noncomputable def centroids2corners (b : Box) : Box :=
  ⟨b.c0 - b.c2 / 2, b.c1 - b.c3 / 2, b.c0 + b.c2 / 2, b.c1 + b.c3 / 2⟩

/-- Modelled from the spec: `convert_coordinates(..., conversion='corners2centroids',
border_pixels='half')` from `bounding_box_utils.bounding_box_utils`.  The
spec requires the `half` policy to make corners-to-centroids-to-corners the
identity, which forces `size = max - min` (no `+1` pixel term) given the
centroid convention of `centroids2corners`. -/
noncomputable def corners2centroids (b : Box) : Box :=
  ⟨(b.c0 + b.c2) / 2, (b.c1 + b.c3) / 2, b.c2 - b.c0, b.c3 - b.c1⟩

/-- Modelled from the spec: `convert_coordinates(..., conversion='corners2minmax')`
from `bounding_box_utils.bounding_box_utils`: a pure channel permutation
`(xmin, ymin, xmax, ymax)` to `(xmin, xmax, ymin, ymax)`. -/
def corners2minmax (b : Box) : Box :=
  ⟨b.c0, b.c2, b.c1, b.c3⟩

/-- The clipping of one coordinate (lines 320-327): values `≥ bound` become
`bound - 1` first, then negative values become `0`. -/
noncomputable def clipCoord (bound x : ℝ) : ℝ :=
  let x1 := if bound ≤ x then bound - 1 else x
  if x1 < 0 then 0 else x1

/-- The clipping step applied to one cell (lines 319-328): x-channels 0 and
2 are clipped against the image width, y-channels 1 and 3 against the
image height. -/
noncomputable def clipBox (w h : ℝ) (b : Box) : Box :=
  ⟨clipCoord w b.c0, clipCoord h b.c1, clipCoord w b.c2, clipCoord h b.c3⟩

/-- The normalization step applied to one cell (lines 331-333): x-channels
divided by the image width, y-channels by the image height. -/
noncomputable def normBox (w h : ℝ) (b : Box) : Box :=
  ⟨b.c0 / w, b.c1 / h, b.c2 / w, b.c3 / h⟩

/-- The conditional clipping stage of `call` for one cell. -/
noncomputable def clipStage (cfg : AnchorConfig) (b : Box) : Box :=
  if cfg.clip_boxes then clipBox (cfg.img_width : ℝ) (cfg.img_height : ℝ) b else b

/-- The conditional normalization stage of `call` for one cell. -/
noncomputable def normStage (cfg : AnchorConfig) (b : Box) : Box :=
  if cfg.normalize_coords then normBox (cfg.img_width : ℝ) (cfg.img_height : ℝ) b else b

/-- The output-format conversion stage of `call` (lines 337-344) for one
cell: the corners tensor is converted to the configured format. -/
noncomputable def coordsStage (cfg : AnchorConfig) (b : Box) : Box :=
  match cfg.coords with
  | .centroids => corners2centroids b
  | .minmax => corners2minmax b
  | .corners => b

/-- The whole per-cell pipeline of `call`: a centroid cell
`(cx, cy, w, h)` through centroids-to-corners conversion (line 316),
clipping, normalization and the output-format conversion. -/
noncomputable def outBox (cfg : AnchorConfig) (cx cy : ℝ) (wh : ℝ × ℝ) : Box :=
  coordsStage cfg (normStage cfg (clipStage cfg (centroids2corners ⟨cx, cy, wh.1, wh.2⟩)))

/-- The channel list of a cell. -/
def boxChannels (b : Box) : List ℝ := [b.c0, b.c1, b.c2, b.c3]

/-- The per-image anchor tensor: rows, columns, boxes, channels. -/
abbrev Tensor := List (List (List (List ℝ)))

/-- A `(h, w, n)` grid of channel lists. -/
def mkGrid (h w n : ℕ) (f : ℕ → ℕ → ℕ → List ℝ) : Tensor :=
  (List.range h).map fun i => (List.range w).map fun j => (List.range n).map fun b => f i j b

/-- Whether every step/offset component and aspect-ratio entry the
generation path multiplies with is a number. -/
def arsNumeric (cfg : AnchorConfig) : Bool :=
  cfg.aspect_ratios.all (fun r => (toRat r).isSome)

/-- `offsetsNumeric cfg` is the gate for the line-288 arithmetic: a stored
offset pair with a non-numeric component makes `offset * step` raise a
`TypeError` there. -/
def offsetsNumeric (cfg : AnchorConfig) : Prop := stepSpecNumeric cfg.this_offsets

instance (cfg : AnchorConfig) : Decidable (offsetsNumeric cfg) := by
  unfold offsetsNumeric stepSpecNumeric
  cases cfg.this_offsets with
  | none => exact inferInstanceAs (Decidable True)
  | some s => cases s <;> infer_instance

/-- `AnchorBoxes.call` (lines 196-361) for one image: the anchor tensor of
shape `(feature_map_height, feature_map_width, n_boxes, 8)`.

The numpy assignment `boxes_tensor[:, :, :, 2] = wh_list[:, 0]` (lines
310-312) broadcasts a length-`len(wh_list)` vector across the `n_boxes`
axis, which succeeds exactly when `len(wh_list)` equals `n_boxes` or `1`
and otherwise raises a broadcast `ValueError`; on success box `b` of every
cell takes row `b` of `wh_list` (row `0` in the stretched length-1 case).
When some aspect ratio is not a number the `wh_list` rows are themselves
arrays and `np.array(wh_list)` has rank 3, which the model folds into the
same broadcast failure (an approximation: for particular grid/box counts
numpy can still broadcast the higher-rank slice; no property proved here
depends on that corner).

The variance attachment `variances_tensor += self.variances` (line 352)
broadcasts the stored variances array into shape
`(h, w, n_boxes, 4)` and raises a broadcast `ValueError` when the shapes
are incompatible — reachable because construction accepts nested
variances such as `[[.1], [.1], [.2], [.2]]`, stored with shape (4,1). -/
noncomputable def call (cfg : AnchorConfig) (feature_map_height feature_map_width : ℕ) :
    Except PyErr Tensor :=
  match stepSizes cfg feature_map_height feature_map_width with
  | .error e => .error e
  | .ok (step_height, step_width) =>
      if ¬offsetsNumeric cfg then .error (.typeError "unsupported operand type for multiply")
      else
        let (offset_height, offset_width) := offsetVals cfg
        let cy := centersFor offset_height step_height feature_map_height
        let cx := centersFor offset_width step_width feature_map_width
        if arsNumeric cfg = true ∧
            ((whList cfg).length = nBoxes cfg ∨ (whList cfg).length = 1) then
          if broadcastsInto cfg.variances.shape
              [feature_map_height, feature_map_width, nBoxes cfg, 4] = true then
            .ok (mkGrid feature_map_height feature_map_width (nBoxes cfg) fun i j b =>
              boxChannels (outBox cfg ((cx.getD j 0 : ℚ) : ℝ) ((cy.getD i 0 : ℚ) : ℝ)
                  ((whList cfg).getD (if (whList cfg).length = 1 then 0 else b) (0, 0)))
                ++ (List.range 4).map (fun c => ((npAt cfg.variances [i, j, b, c] : ℚ) : ℝ)))
          else .error .broadcast
        else .error .broadcast

/-- Lines 355-359 of `call`: the per-image tensor gains a batch axis and is
tiled `batch` times along it. -/
noncomputable def callBatched (cfg : AnchorConfig) (batch feature_map_height feature_map_width : ℕ) :
    Except PyErr (List Tensor) :=
  (call cfg feature_map_height feature_map_width).map (List.replicate batch)

/-- `AnchorBoxes.compute_output_shape` (lines 363-370) under the
TensorFlow dimension ordering: the batch and spatial dimensions pass
through and the tail becomes `(n_boxes, 8)`. -/
def computeOutputShape (cfg : AnchorConfig) (input_shape : ℕ × ℕ × ℕ × ℕ) :
    ℕ × ℕ × ℕ × ℕ × ℕ :=
  (input_shape.1, input_shape.2.1, input_shape.2.2.1, nBoxes cfg, 8)

/-- The shape predicate for a per-image tensor: `h` rows, each of `w`
cells, each of `n` boxes, each of `c` channels. -/
def hasShape (t : Tensor) (h w n c : ℕ) : Prop :=
  t.length = h ∧ ∀ row ∈ t, row.length = w ∧
    ∀ cell ∈ row, cell.length = n ∧ ∀ ch ∈ cell, ch.length = c

/-- The value at position `(i, j, b, c)` of a `call` result (`0` when the
call failed or an index is out of range). -/
def tensorAt (r : Except PyErr Tensor) (i j b c : ℕ) : ℝ :=
  match r with
  | .ok t => ((((t.getD i []).getD j []).getD b []).getD c 0)
  | .error _ => 0

/-- The variance list used throughout the examples, `[0.1, 0.1, 0.2, 0.2]`. -/
def stdVariances : List ℚ := [1/10, 1/10, 1/5, 1/5]

/-- The same variance values as the flat (4,) numpy array `__init__`
stores. -/
def npStdVariances : NpArray := ⟨[4], stdVariances⟩

/-- The concrete scenario of spec section 8: image 300x300, scales 0.2 and
0.34, aspect ratios `[1.0, 2.0]`, `two_boxes_for_ar1=True`, default steps
and offsets, no clipping, centroids output, no normalization. -/
def cfgScenario : AnchorConfig :=
  { img_height := 300, img_width := 300, this_scale := 1/5, next_scale := 17/50,
    aspect_ratios := [.float 1, .float 2], two_boxes_for_ar1 := true, this_steps := none,
    this_offsets := none, clip_boxes := false, variances := npStdVariances,
    coords := .centroids, normalize_coords := false }

/-- A configuration the constructor accepts in which the aspect ratio `1.0`
occurs twice while `two_boxes_for_ar1` is set. -/
def cfgDupAR : AnchorConfig :=
  { img_height := 300, img_width := 300, this_scale := 1/5, next_scale := 17/50,
    aspect_ratios := [.float 1, .float 1], two_boxes_for_ar1 := true, this_steps := none,
    this_offsets := none, clip_boxes := false, variances := npStdVariances,
    coords := .centroids, normalize_coords := false }

/-- A valid configuration with `aspect_ratios = [1.0, 1.0, 2.0]` and
`two_boxes_for_ar1` set: `wh_list` gets 5 entries while `n_boxes = 4`. -/
def cfgDupAR3 : AnchorConfig :=
  { img_height := 300, img_width := 300, this_scale := 1/5, next_scale := 17/50,
    aspect_ratios := [.float 1, .float 1, .float 2], two_boxes_for_ar1 := true, this_steps := none,
    this_offsets := none, clip_boxes := false, variances := npStdVariances,
    coords := .centroids, normalize_coords := false }

/-- A valid clipping configuration whose single anchor box has corner
coordinate `299.25`, strictly between `img_width - 1` and `img_width`:
scale `0.995` on a 300x300 image with a 1x1 grid puts the box center at
`150` with width and height `298.5`. -/
def cfgOverflow : AnchorConfig :=
  { img_height := 300, img_width := 300, this_scale := 199/200, next_scale := 17/50,
    aspect_ratios := [.float 1], two_boxes_for_ar1 := false, this_steps := none,
    this_offsets := none, clip_boxes := true, variances := npStdVariances,
    coords := .corners, normalize_coords := false }

/-- The overflow configuration with normalization switched on. -/
def cfgOverflowNorm : AnchorConfig :=
  { cfgOverflow with normalize_coords := true }

/-- A valid configuration on which clipping inverts the box: the center
lands at `(300, 300)` (step 600, offset 0.5, 1x1 grid) with a width-1 box,
so `xmin = 299.5` survives clipping while `xmax = 300.5` is clipped down to
`299 < xmin`, making the centroids-format width negative. -/
def cfgInvert : AnchorConfig :=
  { img_height := 300, img_width := 300, this_scale := 1/300, next_scale := 17/50,
    aspect_ratios := [.float 1], two_boxes_for_ar1 := false,
    this_steps := some (.scalar 600), this_offsets := none, clip_boxes := true,
    variances := npStdVariances, coords := .centroids, normalize_coords := true }

/-- The evenly-spaced-centers property of one axis: `n` center values, the
first at `offset*step`, the last at `(offset + n - 1)*step`, the `i`-th at
`offset*step + i*step`. -/
def evenlySpacedSpec (offset step : ℚ) (n : ℕ) : Prop :=
  (centersFor offset step n).length = n ∧
  (centersFor offset step n).getD 0 0 = offset * step ∧
  (centersFor offset step n).getD (n - 1) 0 = (offset + (n : ℚ) - 1) * step ∧
  ∀ i < n, (centersFor offset step n).getD i 0 = offset * step + (i : ℚ) * step

theorem whEntry_length (cfg : AnchorConfig) (r : PyValue) :
    (whEntry cfg r).length = if isAR1 r = true ∧ cfg.two_boxes_for_ar1 = true then 2 else 1 := by
  unfold whEntry isAR1
  cases htr : toRat r with
  | none => simp [htr]
  | some q =>
      by_cases h1 : q = 1 <;> by_cases h2 : cfg.two_boxes_for_ar1 = true <;>
        simp [htr, h1, h2]

theorem whList_length (cfg : AnchorConfig) :
    (whList cfg).length = cfg.aspect_ratios.length +
      (if cfg.two_boxes_for_ar1 = true then cfg.aspect_ratios.countP isAR1 else 0) := by
  unfold whList
  induction cfg.aspect_ratios with
  | nil => simp
  | cons a l ih =>
      rw [List.flatMap_cons, List.length_append, ih, whEntry_length, List.countP_cons]
      by_cases h1 : isAR1 a = true <;> by_cases h2 : cfg.two_boxes_for_ar1 = true <;>
        simp [h1, h2] <;> omega

theorem centersFor_length (offset step : ℚ) (n : ℕ) :
    (centersFor offset step n).length = n := by
  unfold centersFor linspace
  by_cases h1 : n = 1
  · rw [if_pos h1, h1]; rfl
  · rw [if_neg h1, List.length_map, List.length_range]

theorem centersFor_getD (offset step : ℚ) (n i : ℕ) (hi : i < n) :
    (centersFor offset step n).getD i 0 = offset * step + (i : ℚ) * step := by
  unfold centersFor linspace
  by_cases h1 : n = 1
  · have hi0 : i = 0 := by omega
    subst h1; subst hi0; simp
  · rw [if_neg h1]
    have hlen : i < ((List.range n).map fun (i : ℕ) =>
        offset * step + (i : ℚ) * (((offset + (n : ℚ) - 1) * step - offset * step) / ((n : ℚ) - 1))).length := by
      rw [List.length_map, List.length_range]; exact hi
    rw [List.getD_eq_getElem _ _ hlen, List.getElem_map, List.getElem_range]
    have h2 : 2 ≤ n := by omega
    have hn : ((n : ℚ) - 1) ≠ 0 := by
      have : (2 : ℚ) ≤ (n : ℚ) := by exact_mod_cast h2
      linarith
    have hval : ((offset + (n : ℚ) - 1) * step - offset * step) = ((n : ℚ) - 1) * step := by
      ring
    rw [hval, mul_div_cancel_left₀ _ hn]

theorem evenlySpacedSpec_holds (offset step : ℚ) (n : ℕ) (hn : 0 < n) :
    evenlySpacedSpec offset step n := by
  refine ⟨centersFor_length offset step n, ?_, ?_, fun i hi => centersFor_getD offset step n i hi⟩
  · rw [centersFor_getD offset step n 0 hn]; simp
  · rw [centersFor_getD offset step n (n - 1) (by omega)]
    have hcast : ((n - 1 : ℕ) : ℚ) = (n : ℚ) - 1 := by
      have : 1 ≤ n := hn
      push_cast [this]
      ring
    rw [hcast]; ring

theorem posFloatEntries (l : List ℚ) (hl : ∀ q ∈ l, 0 < q) :
    ∀ r ∈ l.map PyValue.float, ∃ q, toRat r = some q ∧ 0 < q := by
  intro r hr
  obtain ⟨q, hq, rfl⟩ := List.mem_map.mp hr
  exact ⟨q, rfl, hl q hq⟩

theorem cfgDupAR3_valid : cfgDupAR3.valid := by
  unfold AnchorConfig.valid cfgDupAR3 npStdVariances stdVariances
  refine ⟨by norm_num, by norm_num, by norm_num, by norm_num, by simp, ?_,
    rfl, rfl, by norm_num, trivial, trivial⟩
  exact posFloatEntries [1, 1, 2] (by norm_num)

theorem cfgScenario_valid : cfgScenario.valid := by
  unfold AnchorConfig.valid cfgScenario npStdVariances stdVariances
  refine ⟨by norm_num, by norm_num, by norm_num, by norm_num, by simp, ?_,
    rfl, rfl, by norm_num, trivial, trivial⟩
  exact posFloatEntries [1, 2] (by norm_num)

theorem cfgDupAR_valid : cfgDupAR.valid := by
  unfold AnchorConfig.valid cfgDupAR npStdVariances stdVariances
  refine ⟨by norm_num, by norm_num, by norm_num, by norm_num, by simp, ?_,
    rfl, rfl, by norm_num, trivial, trivial⟩
  exact posFloatEntries [1, 1] (by norm_num)

theorem whList_length_eq_nBoxes (cfg : AnchorConfig)
    (hdup : cfg.aspect_ratios.countP isAR1 ≤ 1) :
    (whList cfg).length = nBoxes cfg := by
  rw [whList_length, nBoxes]
  by_cases hm : cfg.aspect_ratios.any isAR1 = true ∧ cfg.two_boxes_for_ar1 = true
  · rw [if_pos hm, if_pos hm.2]
    obtain ⟨x, hx, hpx⟩ := List.any_eq_true.mp hm.1
    have h1 : cfg.aspect_ratios.countP isAR1 ≠ 0 := fun h0 =>
      (List.countP_eq_zero.mp h0 x hx) hpx
    omega
  · rw [if_neg hm]
    by_cases h2 : cfg.two_boxes_for_ar1 = true
    · rw [if_pos h2]
      have hany : cfg.aspect_ratios.any isAR1 = false := by
        cases hb : cfg.aspect_ratios.any isAR1 with
        | false => rfl
        | true => exact absurd ⟨hb, h2⟩ hm
      rw [List.countP_eq_zero.mpr (fun x hx hpx => ?_)]
      · omega
      · exact absurd (List.any_eq_true.mpr ⟨x, hx, hpx⟩) (by rw [hany]; simp)
    · rw [if_neg h2]
      omega

/-- C1 (corrected).  For every valid configuration in which the aspect
ratio `1.0` occurs at most once, the ordered `wh_list` built by step 1 of
`call` has exactly `n_boxes` entries.  (In general the list has
`len(aspect_ratios) + count_of_1` entries when `two_boxes_for_ar1` is set,
which the companion counterexample shows exceeds `n_boxes` when `1.0`
occurs more than once.) -/
theorem wh_list_length_matches_n_boxes (cfg : AnchorConfig) (_hv : cfg.valid)
    (hdup : cfg.aspect_ratios.countP isAR1 ≤ 1) :
    (whList cfg).length = nBoxes cfg :=
  whList_length_eq_nBoxes cfg hdup

/-- Witness for C1 at the spec's concrete scenario configuration. -/
theorem wh_list_length_matches_n_boxes_witness :
    cfgScenario.valid ∧ cfgScenario.aspect_ratios.countP isAR1 ≤ 1 ∧
      (whList cfgScenario).length = nBoxes cfgScenario :=
  ⟨cfgScenario_valid, by norm_num [cfgScenario, List.countP_cons, isAR1, toRat],
    wh_list_length_matches_n_boxes cfgScenario cfgScenario_valid
      (by norm_num [cfgScenario, List.countP_cons, isAR1, toRat])⟩

/-- Counterexample to C1 as stated: the constructor accepts
`aspect_ratios = [1.0, 1.0]` with `two_boxes_for_ar1 = True`, and then
`wh_list` has 4 entries while `n_boxes = 3`. -/
theorem wh_list_length_duplicate_ar1_mismatch :
    cfgDupAR.valid ∧ (whList cfgDupAR).length = 4 ∧ nBoxes cfgDupAR = 3 ∧
      (whList cfgDupAR).length ≠ nBoxes cfgDupAR := by
  have hlen : (whList cfgDupAR).length = 4 := by
    rw [whList_length]; norm_num [cfgDupAR, List.countP_cons, isAR1, toRat]
  have hnb : nBoxes cfgDupAR = 3 := by norm_num [nBoxes, cfgDupAR, isAR1, toRat]
  exact ⟨cfgDupAR_valid, hlen, hnb, by rw [hlen, hnb]; omega⟩

/-- C4 (confirmed).  For every valid configuration and positive grid, the
row-center values of `call` are `feature_grid_height` evenly spaced values
starting at `offset_height*step_height`, ending at
`(offset_height + feature_grid_height - 1)*step_height`, the `i`-th being
`offset_height*step_height + i*step_height` in exact arithmetic; column
centers analogously. -/
theorem centers_evenly_spaced (cfg : AnchorConfig) (_hv : cfg.valid)
    (h w : ℕ) (hh : 0 < h) (hw : 0 < w) (sh sw : ℚ)
    (_hstep : stepSizes cfg h w = .ok (sh, sw)) :
    evenlySpacedSpec (offsetVals cfg).1 sh h ∧ evenlySpacedSpec (offsetVals cfg).2 sw w :=
  ⟨evenlySpacedSpec_holds _ _ h hh, evenlySpacedSpec_holds _ _ w hw⟩

/-- Witness for C4 at the concrete scenario (10x10 grid, step 30). -/
theorem centers_evenly_spaced_witness :
    cfgScenario.valid ∧ stepSizes cfgScenario 10 10 = .ok (30, 30) ∧
      evenlySpacedSpec (offsetVals cfgScenario).1 30 10 ∧
      evenlySpacedSpec (offsetVals cfgScenario).2 30 10 := by
  have hstep : stepSizes cfgScenario 10 10 = .ok (30, 30) := by
    norm_num [stepSizes, cfgScenario]
  have h := centers_evenly_spaced cfgScenario cfgScenario_valid 10 10 (by norm_num)
    (by norm_num) 30 30 hstep
  exact ⟨cfgScenario_valid, hstep, h.1, h.2⟩

/-- C6 (confirmed).  Converting a corners-format box to centroids under the
half border-pixel policy and back to corners is the identity (exactly, so in
particular within floating-point tolerance) for boxes of positive width and
height. -/
theorem corners_centroids_round_trip (b : Box) (_hw : 0 < b.c2 - b.c0)
    (_hh : 0 < b.c3 - b.c1) :
    centroids2corners (corners2centroids b) = b := by
  cases b with
  | mk c0 c1 c2 c3 =>
      simp only [corners2centroids, centroids2corners, Box.mk.injEq]
      exact ⟨by ring, by ring, by ring, by ring⟩

/-- Witness for C6 at the box `(xmin, ymin, xmax, ymax) = (0, 1, 2, 3)`. -/
theorem corners_centroids_round_trip_witness :
    (0 : ℝ) < (Box.mk 0 1 2 3).c2 - (Box.mk 0 1 2 3).c0 ∧
    (0 : ℝ) < (Box.mk 0 1 2 3).c3 - (Box.mk 0 1 2 3).c1 ∧
    centroids2corners (corners2centroids (Box.mk 0 1 2 3)) = Box.mk 0 1 2 3 :=
  ⟨by norm_num, by norm_num,
    corners_centroids_round_trip (Box.mk 0 1 2 3) (by norm_num) (by norm_num)⟩

theorem stepSizes_ok (cfg : AnchorConfig) (h w : ℕ) (hh : 0 < h) (hw : 0 < w)
    (hsn : stepSpecNumeric cfg.this_steps) :
    ∃ sh sw, stepSizes cfg h w = .ok (sh, sw) := by
  unfold stepSizes
  cases hc : cfg.this_steps with
  | none =>
      refine ⟨(cfg.img_height : ℚ) / (h : ℚ), (cfg.img_width : ℚ) / (w : ℚ), ?_⟩
      rw [if_neg (by omega)]
  | some s =>
      cases s with
      | scalar v => exact ⟨v, v, rfl⟩
      | pair a b =>
          rw [hc] at hsn
          unfold stepSpecNumeric at hsn
          dsimp only at hsn ⊢
          obtain ⟨x, hx⟩ := Option.isSome_iff_exists.mp hsn.1
          obtain ⟨y, hy⟩ := Option.isSome_iff_exists.mp hsn.2
          rw [hx, hy]
          exact ⟨x, y, rfl⟩

theorem call_eq_ok (cfg : AnchorConfig) (h w : ℕ) (sh sw : ℚ)
    (hstep : stepSizes cfg h w = .ok (sh, sw))
    (hoff : offsetsNumeric cfg)
    (hars : arsNumeric cfg = true)
    (hlen : (whList cfg).length = nBoxes cfg ∨ (whList cfg).length = 1)
    (hvar : broadcastsInto cfg.variances.shape [h, w, nBoxes cfg, 4] = true) :
    call cfg h w = .ok (mkGrid h w (nBoxes cfg) fun i j b =>
      boxChannels (outBox cfg
          (((centersFor (offsetVals cfg).2 sw w).getD j 0 : ℚ) : ℝ)
          (((centersFor (offsetVals cfg).1 sh h).getD i 0 : ℚ) : ℝ)
          ((whList cfg).getD (if (whList cfg).length = 1 then 0 else b) (0, 0)))
        ++ (List.range 4).map (fun c => ((npAt cfg.variances [i, j, b, c] : ℚ) : ℝ))) := by
  unfold call
  rw [hstep]
  simp only [if_neg (not_not_intro hoff), if_pos (And.intro hars hlen), if_pos hvar]

theorem call_eq_broadcast_error (cfg : AnchorConfig) (h w : ℕ) (sh sw : ℚ)
    (hstep : stepSizes cfg h w = .ok (sh, sw))
    (hoff : offsetsNumeric cfg)
    (hlen : ¬(arsNumeric cfg = true ∧
      ((whList cfg).length = nBoxes cfg ∨ (whList cfg).length = 1))) :
    call cfg h w = .error .broadcast := by
  unfold call
  rw [hstep]
  simp only [if_neg (not_not_intro hoff), if_neg hlen]

theorem mkGrid_getD (h w n : ℕ) (f : ℕ → ℕ → ℕ → List ℝ) (i j b : ℕ)
    (hi : i < h) (hj : j < w) (hb : b < n) :
    (((mkGrid h w n f).getD i []).getD j []).getD b [] = f i j b := by
  have h1 : (mkGrid h w n f).getD i [] =
      (List.range w).map fun jj => (List.range n).map fun bb => f i jj bb := by
    unfold mkGrid
    rw [List.getD_eq_getElem _ _ (by rw [List.length_map, List.length_range]; exact hi),
      List.getElem_map, List.getElem_range]
  have h2 : (((List.range w).map fun jj => (List.range n).map fun bb => f i jj bb).getD j []) =
      (List.range n).map fun bb => f i j bb := by
    rw [List.getD_eq_getElem _ _ (by rw [List.length_map, List.length_range]; exact hj),
      List.getElem_map, List.getElem_range]
  have h3 : (((List.range n).map fun bb => f i j bb).getD b []) = f i j b := by
    rw [List.getD_eq_getElem _ _ (by rw [List.length_map, List.length_range]; exact hb),
      List.getElem_map, List.getElem_range]
  rw [h1, h2, h3]

theorem mkGrid_shape (h w n c : ℕ) (f : ℕ → ℕ → ℕ → List ℝ)
    (hc : ∀ i j b, (f i j b).length = c) :
    hasShape (mkGrid h w n f) h w n c := by
  refine ⟨by simp [mkGrid], ?_⟩
  intro row hrow
  obtain ⟨i, _, rfl⟩ := List.mem_map.mp hrow
  refine ⟨by simp, ?_⟩
  intro cell hcell
  obtain ⟨j, _, rfl⟩ := List.mem_map.mp hcell
  refine ⟨by simp, ?_⟩
  intro ch hch
  obtain ⟨b, _, rfl⟩ := List.mem_map.mp hch
  exact hc i j b

theorem arsNumeric_of_valid (cfg : AnchorConfig) (hv : cfg.valid) :
    arsNumeric cfg = true := by
  unfold arsNumeric
  rw [List.all_eq_true]
  intro r hr
  obtain ⟨q, hq, _⟩ := hv.2.2.2.2.2.1 r hr
  rw [hq]; rfl

theorem broadcast_flat (s : List ℕ) (hs : s = [4]) (h w n : ℕ) :
    broadcastsInto s [h, w, n, 4] = true := by
  rw [hs]; rfl

theorem npAt_flat4 (arr : NpArray) (hs : arr.shape = [4]) (i j b c : ℕ) :
    npAt arr [i, j, b, c] = arr.data.getD c 0 := by
  unfold npAt
  rw [hs]
  norm_num

theorem range4_map_getD (l : List ℚ) (hl : l.length = 4) :
    (List.range 4).map (fun c => ((l.getD c 0 : ℚ) : ℝ)) =
      l.map (fun (q : ℚ) => (q : ℝ)) := by
  rcases l with _ | ⟨a, l⟩
  · simp at hl
  rcases l with _ | ⟨b, l⟩
  · simp at hl
  rcases l with _ | ⟨c, l⟩
  · simp at hl
  rcases l with _ | ⟨d, l⟩
  · simp at hl
  rcases l with _ | ⟨e, l⟩
  · rfl
  · simp only [List.length_cons] at hl; omega

/-- C2 (corrected).  For every configuration that passes construction whose
aspect-ratio entries are positive numbers with `1.0` occurring at most
once, whose step/offset pairs contain numbers, and whose variances form a
flat 4-vector, `call` completes without raising.  Outside this set,
construction-accepted configurations can raise inside `call`: a duplicated
`1.0` with `two_boxes_for_ar1` hits the `wh_list` broadcast (the proved
counterexample), non-numeric step/offset pair components hit a `TypeError`
at the center-grid arithmetic, and nested variances hit the variance
broadcast when `n_boxes` is not 4. -/
theorem call_ok_of_valid (cfg : AnchorConfig) (hv : cfg.valid)
    (hdup : cfg.aspect_ratios.countP isAR1 ≤ 1) (h w : ℕ) (hh : 0 < h) (hw : 0 < w) :
    ∃ t, call cfg h w = .ok t := by
  obtain ⟨sh, sw, hstep⟩ := stepSizes_ok cfg h w hh hw hv.2.2.2.2.2.2.2.2.2.1
  exact ⟨_, call_eq_ok cfg h w sh sw hstep hv.2.2.2.2.2.2.2.2.2.2
    (arsNumeric_of_valid cfg hv) (Or.inl (whList_length_eq_nBoxes cfg hdup))
    (broadcast_flat _ hv.2.2.2.2.2.2.1 h w (nBoxes cfg))⟩

/-- Witness for C2 at the concrete scenario configuration on a 10x10 grid. -/
theorem call_ok_of_valid_witness :
    cfgScenario.valid ∧ cfgScenario.aspect_ratios.countP isAR1 ≤ 1 ∧
      ∃ t, call cfgScenario 10 10 = .ok t :=
  ⟨cfgScenario_valid, by norm_num [cfgScenario, List.countP_cons, isAR1, toRat],
    call_ok_of_valid cfgScenario cfgScenario_valid
      (by norm_num [cfgScenario, List.countP_cons, isAR1, toRat]) 10 10
      (by norm_num) (by norm_num)⟩

/-- Counterexample to C2 as stated: `aspect_ratios = [1.0, 1.0]` with
`two_boxes_for_ar1 = True` passes construction, yet generation on a 3x3
grid raises the numpy broadcast error. -/
theorem call_broadcast_error_duplicate_ar1 :
    cfgDupAR.valid ∧ call cfgDupAR 3 3 = .error .broadcast := by
  have hstep : stepSizes cfgDupAR 3 3 = .ok (100, 100) := by
    norm_num [stepSizes, cfgDupAR]
  refine ⟨cfgDupAR_valid, call_eq_broadcast_error cfgDupAR 3 3 100 100 hstep trivial ?_⟩
  have hlen : (whList cfgDupAR).length = 4 := by
    rw [whList_length]; norm_num [cfgDupAR, List.countP_cons, isAR1, toRat]
  have hnb : nBoxes cfgDupAR = 3 := by norm_num [nBoxes, cfgDupAR, isAR1, toRat]
  rintro ⟨-, hor⟩
  rw [hlen, hnb] at hor
  omega

/-- C7 (corrected).  For every valid configuration in which `1.0` occurs at
most once in `aspect_ratios` (so that a tensor is produced at all, see C2),
`call` returns a tensor of per-image shape `(h, w, n_boxes, 8)` in which
every cell consists of the 4 box coordinates in the configured output
format (the `outBox` pipeline ends with the `coords` conversion of lines
337-344) followed by the 4 configured variance values; tiling along the
prepended batch axis gives `batch` copies, and the declared output shape
is `(batch, h, w, n_boxes, 8)`. -/
theorem call_shape_of_valid (cfg : AnchorConfig) (hv : cfg.valid)
    (hdup : cfg.aspect_ratios.countP isAR1 ≤ 1) (h w : ℕ) (hh : 0 < h) (hw : 0 < w) :
    ∃ t, call cfg h w = .ok t ∧ hasShape t h w (nBoxes cfg) 8 ∧
      (∀ sh sw, stepSizes cfg h w = .ok (sh, sw) →
        ∀ i j b, i < h → j < w → b < nBoxes cfg →
          ((t.getD i []).getD j []).getD b [] =
            boxChannels (outBox cfg
                (((centersFor (offsetVals cfg).2 sw w).getD j 0 : ℚ) : ℝ)
                (((centersFor (offsetVals cfg).1 sh h).getD i 0 : ℚ) : ℝ)
                ((whList cfg).getD (if (whList cfg).length = 1 then 0 else b) (0, 0)))
              ++ cfg.variances.data.map (fun (q : ℚ) => (q : ℝ))) ∧
      (∀ batch, callBatched cfg batch h w = .ok (List.replicate batch t)) ∧
      (∀ batch channels, computeOutputShape cfg (batch, h, w, channels) =
        (batch, h, w, nBoxes cfg, 8)) := by
  obtain ⟨sh, sw, hstep⟩ := stepSizes_ok cfg h w hh hw hv.2.2.2.2.2.2.2.2.2.1
  have hok := call_eq_ok cfg h w sh sw hstep hv.2.2.2.2.2.2.2.2.2.2
    (arsNumeric_of_valid cfg hv) (Or.inl (whList_length_eq_nBoxes cfg hdup))
    (broadcast_flat _ hv.2.2.2.2.2.2.1 h w (nBoxes cfg))
  refine ⟨_, hok, ?_, ?_, ?_, fun _ _ => rfl⟩
  · apply mkGrid_shape
    intro i j b
    simp [boxChannels]
  · intro sh2 sw2 hstep2 i j b hi hj hb
    rw [hstep] at hstep2
    simp only [Except.ok.injEq, Prod.mk.injEq] at hstep2
    obtain ⟨rfl, rfl⟩ := hstep2
    rw [mkGrid_getD h w (nBoxes cfg) _ i j b hi hj hb]
    congr 1
    simp only [npAt_flat4 cfg.variances hv.2.2.2.2.2.2.1]
    exact range4_map_getD cfg.variances.data hv.2.2.2.2.2.2.2.1
  · intro batch
    unfold callBatched
    rw [hok]
    rfl

/-- Witness for C7 at the concrete scenario configuration on a 10x10 grid. -/
theorem call_shape_of_valid_witness :
    cfgScenario.valid ∧ cfgScenario.aspect_ratios.countP isAR1 ≤ 1 ∧
      ∃ t, call cfgScenario 10 10 = .ok t ∧ hasShape t 10 10 (nBoxes cfgScenario) 8 ∧
        (∀ sh sw, stepSizes cfgScenario 10 10 = .ok (sh, sw) →
          ∀ i j b, i < 10 → j < 10 → b < nBoxes cfgScenario →
            ((t.getD i []).getD j []).getD b [] =
              boxChannels (outBox cfgScenario
                  (((centersFor (offsetVals cfgScenario).2 sw 10).getD j 0 : ℚ) : ℝ)
                  (((centersFor (offsetVals cfgScenario).1 sh 10).getD i 0 : ℚ) : ℝ)
                  ((whList cfgScenario).getD
                    (if (whList cfgScenario).length = 1 then 0 else b) (0, 0)))
                ++ cfgScenario.variances.data.map (fun (q : ℚ) => (q : ℝ))) ∧
        (∀ batch, callBatched cfgScenario batch 10 10 = .ok (List.replicate batch t)) ∧
        (∀ batch channels, computeOutputShape cfgScenario (batch, 10, 10, channels) =
          (batch, 10, 10, nBoxes cfgScenario, 8)) :=
  ⟨cfgScenario_valid, by norm_num [cfgScenario, List.countP_cons, isAR1, toRat],
    call_shape_of_valid cfgScenario cfgScenario_valid
      (by norm_num [cfgScenario, List.countP_cons, isAR1, toRat]) 10 10
      (by norm_num) (by norm_num)⟩

/-- Counterexample to C7 as stated: for the accepted configuration with
`aspect_ratios = [1.0, 1.0, 2.0]` and `two_boxes_for_ar1 = True`,
generation on a 2x2 grid produces no tensor at all. -/
theorem call_no_tensor_duplicate_ar1 :
    cfgDupAR3.valid ∧ call cfgDupAR3 2 2 = .error .broadcast ∧
      ∀ t, call cfgDupAR3 2 2 ≠ .ok t := by
  have hstep : stepSizes cfgDupAR3 2 2 = .ok (150, 150) := by
    norm_num [stepSizes, cfgDupAR3]
  have hlen : (whList cfgDupAR3).length = 5 := by
    rw [whList_length]; norm_num [cfgDupAR3, List.countP_cons, isAR1, toRat]
  have hnb : nBoxes cfgDupAR3 = 4 := by norm_num [nBoxes, cfgDupAR3, isAR1, toRat]
  have herr : call cfgDupAR3 2 2 = .error .broadcast := by
    refine call_eq_broadcast_error cfgDupAR3 2 2 150 150 hstep trivial ?_
    rintro ⟨-, hor⟩
    rw [hlen, hnb] at hor
    omega
  refine ⟨cfgDupAR3_valid, herr, fun t ht => ?_⟩
  rw [herr] at ht
  simp at ht

theorem clipCoord_bounds (bound x : ℝ) (hb : 1 ≤ bound) :
    0 ≤ clipCoord bound x ∧ clipCoord bound x < bound := by
  simp only [clipCoord]
  by_cases h1 : bound ≤ x
  · rw [if_pos h1]
    have hneg : ¬(bound - 1 < 0) := by linarith
    rw [if_neg hneg]
    constructor <;> linarith
  · rw [if_neg h1]
    by_cases h2 : x < 0
    · rw [if_pos h2]
      constructor <;> linarith
    · rw [if_neg h2]
      constructor <;> linarith

theorem call_cell_mem (cfg : AnchorConfig) (h w : ℕ) (t : Tensor)
    (hok : call cfg h w = .ok t) :
    ∀ row ∈ t, ∀ cell ∈ row, ∀ ch ∈ cell,
      ∃ (cx cy : ℝ) (wh : ℝ × ℝ) (rest : List ℝ),
        ch = boxChannels (outBox cfg cx cy wh) ++ rest := by
  unfold call at hok
  cases hcs : stepSizes cfg h w with
  | error e => rw [hcs] at hok; simp at hok
  | ok p =>
      obtain ⟨sh, sw⟩ := p
      rw [hcs] at hok
      dsimp only at hok
      by_cases hoff : offsetsNumeric cfg
      case neg => rw [if_pos hoff] at hok; simp at hok
      rw [if_neg (not_not_intro hoff)] at hok
      by_cases hlen : arsNumeric cfg = true ∧
          ((whList cfg).length = nBoxes cfg ∨ (whList cfg).length = 1)
      case neg => rw [if_neg hlen] at hok; simp at hok
      rw [if_pos hlen] at hok
      by_cases hvar : broadcastsInto cfg.variances.shape [h, w, nBoxes cfg, 4] = true
      case neg => rw [if_neg hvar] at hok; simp at hok
      rw [if_pos hvar] at hok
      simp only [Except.ok.injEq] at hok
      subst hok
      intro row hrow cell hcell ch hch
      obtain ⟨i, _, rfl⟩ := List.mem_map.mp hrow
      obtain ⟨j, _, rfl⟩ := List.mem_map.mp hcell
      obtain ⟨b, _, rfl⟩ := List.mem_map.mp hch
      exact ⟨_, _, _, _, rfl⟩

theorem cfgOverflow_valid : cfgOverflow.valid := by
  unfold AnchorConfig.valid cfgOverflow npStdVariances stdVariances
  refine ⟨by norm_num, by norm_num, by norm_num, by norm_num, by simp, ?_,
    rfl, rfl, by norm_num, trivial, trivial⟩
  exact posFloatEntries [1] (by norm_num)

theorem cfgInvert_valid : cfgInvert.valid := by
  unfold AnchorConfig.valid cfgInvert npStdVariances stdVariances
  refine ⟨by norm_num, by norm_num, by norm_num, by norm_num, by simp, ?_,
    rfl, rfl, by norm_num, trivial, trivial⟩
  exact posFloatEntries [1] (by norm_num)

/-- C3 (corrected).  With `clip_boxes=True` every clipped x-coordinate lies
in the half-open interval `[0, image_width)` and every clipped y-coordinate
in `[0, image_height)`, for arbitrary center/shape combinations (so in
particular for boxes extending outside the image); with `corners` output
and no normalization the same bounds hold for the four coordinate channels
of the generated tensor.  The closed upper bound `image_width - 1` claimed
by the spec fails: values strictly between `image_width - 1` and
`image_width` pass through the clip untouched (see the companion
counterexample). -/
theorem clipped_coords_in_image_bounds (cfg : AnchorConfig) (hv : cfg.valid)
    (hclip : cfg.clip_boxes = true) :
    (∀ b : Box,
      (0 ≤ (clipStage cfg b).c0 ∧ (clipStage cfg b).c0 < (cfg.img_width : ℝ)) ∧
      (0 ≤ (clipStage cfg b).c2 ∧ (clipStage cfg b).c2 < (cfg.img_width : ℝ)) ∧
      (0 ≤ (clipStage cfg b).c1 ∧ (clipStage cfg b).c1 < (cfg.img_height : ℝ)) ∧
      (0 ≤ (clipStage cfg b).c3 ∧ (clipStage cfg b).c3 < (cfg.img_height : ℝ))) ∧
    (cfg.normalize_coords = false → cfg.coords = .corners →
      ∀ h w t, call cfg h w = .ok t →
        ∀ row ∈ t, ∀ cell ∈ row, ∀ ch ∈ cell,
          (0 ≤ ch.getD 0 0 ∧ ch.getD 0 0 < (cfg.img_width : ℝ)) ∧
          (0 ≤ ch.getD 2 0 ∧ ch.getD 2 0 < (cfg.img_width : ℝ)) ∧
          (0 ≤ ch.getD 1 0 ∧ ch.getD 1 0 < (cfg.img_height : ℝ)) ∧
          (0 ≤ ch.getD 3 0 ∧ ch.getD 3 0 < (cfg.img_height : ℝ))) := by
  have hW : (1 : ℝ) ≤ (cfg.img_width : ℝ) := by
    have := hv.2.1; exact_mod_cast by omega
  have hH : (1 : ℝ) ≤ (cfg.img_height : ℝ) := by
    have := hv.1; exact_mod_cast by omega
  have hmain : ∀ b : Box,
      (0 ≤ (clipStage cfg b).c0 ∧ (clipStage cfg b).c0 < (cfg.img_width : ℝ)) ∧
      (0 ≤ (clipStage cfg b).c2 ∧ (clipStage cfg b).c2 < (cfg.img_width : ℝ)) ∧
      (0 ≤ (clipStage cfg b).c1 ∧ (clipStage cfg b).c1 < (cfg.img_height : ℝ)) ∧
      (0 ≤ (clipStage cfg b).c3 ∧ (clipStage cfg b).c3 < (cfg.img_height : ℝ)) := by
    intro b
    simp only [clipStage, hclip, if_true, clipBox]
    exact ⟨clipCoord_bounds _ _ hW, clipCoord_bounds _ _ hW,
      clipCoord_bounds _ _ hH, clipCoord_bounds _ _ hH⟩
  refine ⟨hmain, ?_⟩
  intro hnorm hco h w t hok row hrow cell hcell ch hch
  obtain ⟨cx, cy, wh, rest, rfl⟩ := call_cell_mem cfg h w t hok row hrow cell hcell ch hch
  have hout : outBox cfg cx cy wh = clipStage cfg (centroids2corners ⟨cx, cy, wh.1, wh.2⟩) := by
    simp only [outBox, coordsStage, hco, normStage, hnorm, Bool.false_eq_true, if_false]
  rw [hout]
  have hb := hmain (centroids2corners ⟨cx, cy, wh.1, wh.2⟩)
  simp only [boxChannels, List.cons_append, List.getD, List.getElem?_cons_zero,
    List.getElem?_cons_succ, Option.getD_some]
  exact ⟨hb.1, hb.2.1, hb.2.2.1, hb.2.2.2⟩

/-- Witness for C3 at the overflow configuration. -/
theorem clipped_coords_in_image_bounds_witness :
    cfgOverflow.valid ∧ cfgOverflow.clip_boxes = true ∧
      (∀ b : Box,
        (0 ≤ (clipStage cfgOverflow b).c0 ∧
          (clipStage cfgOverflow b).c0 < (cfgOverflow.img_width : ℝ)) ∧
        (0 ≤ (clipStage cfgOverflow b).c2 ∧
          (clipStage cfgOverflow b).c2 < (cfgOverflow.img_width : ℝ)) ∧
        (0 ≤ (clipStage cfgOverflow b).c1 ∧
          (clipStage cfgOverflow b).c1 < (cfgOverflow.img_height : ℝ)) ∧
        (0 ≤ (clipStage cfgOverflow b).c3 ∧
          (clipStage cfgOverflow b).c3 < (cfgOverflow.img_height : ℝ))) :=
  ⟨cfgOverflow_valid, rfl,
    (clipped_coords_in_image_bounds cfgOverflow cfgOverflow_valid rfl).1⟩

theorem cfgOverflow_step : stepSizes cfgOverflow 1 1 = .ok (300, 300) := by
  norm_num [stepSizes, cfgOverflow]

theorem cfgOverflow_whList : whList cfgOverflow = [((597/2 : ℝ), (597/2 : ℝ))] := by
  unfold whList whEntry cfgOverflow
  push_cast
  norm_num [toRat]

/-- Counterexample to C3 as stated: with clipping enabled, the overflow
configuration generates corner x-coordinate `299.25` on a 300-wide image,
which exceeds `image_width - 1 = 299`. -/
theorem clipped_coord_exceeds_width_minus_one :
    cfgOverflow.valid ∧ cfgOverflow.clip_boxes = true ∧
      tensorAt (call cfgOverflow 1 1) 0 0 0 2 = 299.25 ∧
      ¬(tensorAt (call cfgOverflow 1 1) 0 0 0 2 ≤ (cfgOverflow.img_width : ℝ) - 1) := by
  have hlen1 : (whList cfgOverflow).length = 1 := by rw [cfgOverflow_whList]; rfl
  have hnb : nBoxes cfgOverflow = 1 := by norm_num [nBoxes, cfgOverflow, isAR1, toRat]
  have hok := call_eq_ok cfgOverflow 1 1 300 300 cfgOverflow_step trivial rfl
    (Or.inr hlen1) (broadcast_flat _ rfl 1 1 (nBoxes cfgOverflow))
  have hval : tensorAt (call cfgOverflow 1 1) 0 0 0 2 = 299.25 := by
    unfold tensorAt
    rw [hok]
    dsimp only
    rw [mkGrid_getD 1 1 (nBoxes cfgOverflow) _ 0 0 0 (by norm_num) (by norm_num)
      (by rw [hnb]; norm_num)]
    rw [cfgOverflow_whList]
    norm_num [centersFor, linspace, offsetVals, outBox, coordsStage, normStage,
      clipStage, clipBox, clipCoord, centroids2corners, boxChannels, cfgOverflow,
      List.getD]
  refine ⟨cfgOverflow_valid, rfl, hval, ?_⟩
  rw [hval]
  norm_num [cfgOverflow]

/-- C8 (corrected).  With `normalize_coords=True` and `clip_boxes=True`,
every value in the four coordinate channels of the output lies in `[0, 1]`
when the output format is `corners` or `minmax`.  For `centroids` output
the claim fails: clipping can invert a degenerate box (clipped `xmax` below
the untouched `xmin`), making the converted width channel negative (see the
companion counterexample). -/
theorem normalized_coords_in_unit_interval (cfg : AnchorConfig) (hv : cfg.valid)
    (hclip : cfg.clip_boxes = true) (hnorm : cfg.normalize_coords = true)
    (hco : cfg.coords = .corners ∨ cfg.coords = .minmax)
    (h w : ℕ) (t : Tensor) (hok : call cfg h w = .ok t) :
    ∀ row ∈ t, ∀ cell ∈ row, ∀ ch ∈ cell, ∀ c, c < 4 →
      0 ≤ ch.getD c 0 ∧ ch.getD c 0 ≤ 1 := by
  have hW : (0 : ℝ) < (cfg.img_width : ℝ) := by
    have := hv.2.1; exact_mod_cast this
  have hH : (0 : ℝ) < (cfg.img_height : ℝ) := by
    have := hv.1; exact_mod_cast this
  have hW1 : (1 : ℝ) ≤ (cfg.img_width : ℝ) := by
    have := hv.2.1; exact_mod_cast by omega
  have hH1 : (1 : ℝ) ≤ (cfg.img_height : ℝ) := by
    have := hv.1; exact_mod_cast by omega
  have hdivW : ∀ x : ℝ, 0 ≤ clipCoord (cfg.img_width : ℝ) x / (cfg.img_width : ℝ) ∧
      clipCoord (cfg.img_width : ℝ) x / (cfg.img_width : ℝ) ≤ 1 := by
    intro x
    obtain ⟨h0, h1⟩ := clipCoord_bounds (cfg.img_width : ℝ) x hW1
    exact ⟨div_nonneg h0 (le_of_lt hW), (div_le_one hW).mpr (le_of_lt h1)⟩
  have hdivH : ∀ x : ℝ, 0 ≤ clipCoord (cfg.img_height : ℝ) x / (cfg.img_height : ℝ) ∧
      clipCoord (cfg.img_height : ℝ) x / (cfg.img_height : ℝ) ≤ 1 := by
    intro x
    obtain ⟨h0, h1⟩ := clipCoord_bounds (cfg.img_height : ℝ) x hH1
    exact ⟨div_nonneg h0 (le_of_lt hH), (div_le_one hH).mpr (le_of_lt h1)⟩
  intro row hrow cell hcell ch hch c hc
  obtain ⟨cx, cy, wh, rest, rfl⟩ := call_cell_mem cfg h w t hok row hrow cell hcell ch hch
  have hfields :
      (0 ≤ (outBox cfg cx cy wh).c0 ∧ (outBox cfg cx cy wh).c0 ≤ 1) ∧
      (0 ≤ (outBox cfg cx cy wh).c1 ∧ (outBox cfg cx cy wh).c1 ≤ 1) ∧
      (0 ≤ (outBox cfg cx cy wh).c2 ∧ (outBox cfg cx cy wh).c2 ≤ 1) ∧
      (0 ≤ (outBox cfg cx cy wh).c3 ∧ (outBox cfg cx cy wh).c3 ≤ 1) := by
    rcases hco with hco | hco <;>
      simp only [outBox, coordsStage, hco, normStage, hnorm, if_true, clipStage, hclip,
        clipBox, normBox, centroids2corners, corners2minmax]
    · exact ⟨hdivW _, hdivH _, hdivW _, hdivH _⟩
    · exact ⟨hdivW _, hdivW _, hdivH _, hdivH _⟩
  interval_cases c <;>
    simp only [boxChannels, List.cons_append, List.getD, List.getElem?_cons_zero,
      List.getElem?_cons_succ, Option.getD_some] <;>
    [exact hfields.1; exact hfields.2.1; exact hfields.2.2.1; exact hfields.2.2.2]

/-- Witness for C8 at the overflow configuration with normalization added. -/
theorem normalized_coords_in_unit_interval_witness :
    ∃ t, call cfgOverflowNorm 1 1 = .ok t ∧
      ∀ row ∈ t, ∀ cell ∈ row, ∀ ch ∈ cell, ∀ c, c < 4 →
        0 ≤ ch.getD c 0 ∧ ch.getD c 0 ≤ 1 := by
  have hvalid : cfgOverflowNorm.valid := by
    unfold AnchorConfig.valid cfgOverflowNorm cfgOverflow npStdVariances stdVariances
    refine ⟨by norm_num, by norm_num, by norm_num, by norm_num, by simp, ?_,
      rfl, rfl, by norm_num, trivial, trivial⟩
    exact posFloatEntries [1] (by norm_num)
  have hstep : stepSizes cfgOverflowNorm 1 1 = .ok (300, 300) := by
    norm_num [stepSizes, cfgOverflowNorm, cfgOverflow]
  have hlen1 : (whList cfgOverflowNorm).length = 1 := by
    unfold whList whEntry cfgOverflowNorm cfgOverflow
    norm_num [toRat]
  have hok := call_eq_ok cfgOverflowNorm 1 1 300 300 hstep trivial rfl
    (Or.inr hlen1) (broadcast_flat _ rfl 1 1 (nBoxes cfgOverflowNorm))
  exact ⟨_, hok,
    normalized_coords_in_unit_interval cfgOverflowNorm hvalid rfl rfl (Or.inl rfl)
      1 1 _ hok⟩

theorem cfgInvert_step : stepSizes cfgInvert 1 1 = .ok (600, 600) := by
  norm_num [stepSizes, cfgInvert]

theorem cfgInvert_whList : whList cfgInvert = [((1 : ℝ), (1 : ℝ))] := by
  unfold whList whEntry cfgInvert
  push_cast
  norm_num [toRat]

/-- Counterexample to C8 as stated: on the inverting configuration (valid,
`clip_boxes=True`, `normalize_coords=True`, centroids output) the generated
width channel is `-1/600`, outside `[0, 1]`. -/
theorem normalized_centroid_width_negative :
    cfgInvert.valid ∧ cfgInvert.clip_boxes = true ∧
      cfgInvert.normalize_coords = true ∧
      tensorAt (call cfgInvert 1 1) 0 0 0 2 = -(1/600 : ℝ) ∧
      ¬(0 ≤ tensorAt (call cfgInvert 1 1) 0 0 0 2) := by
  have hlen1 : (whList cfgInvert).length = 1 := by rw [cfgInvert_whList]; rfl
  have hnb : nBoxes cfgInvert = 1 := by norm_num [nBoxes, cfgInvert, isAR1, toRat]
  have hok := call_eq_ok cfgInvert 1 1 600 600 cfgInvert_step trivial rfl
    (Or.inr hlen1) (broadcast_flat _ rfl 1 1 (nBoxes cfgInvert))
  have hval : tensorAt (call cfgInvert 1 1) 0 0 0 2 = -(1/600 : ℝ) := by
    unfold tensorAt
    rw [hok]
    dsimp only
    rw [mkGrid_getD 1 1 (nBoxes cfgInvert) _ 0 0 0 (by norm_num) (by norm_num)
      (by rw [hnb]; norm_num)]
    rw [cfgInvert_whList]
    norm_num [centersFor, linspace, offsetVals, outBox, coordsStage, normStage,
      clipStage, clipBox, clipCoord, normBox, centroids2corners, corners2centroids,
      boxChannels, cfgInvert, List.getD]
  refine ⟨cfgInvert_valid, rfl, rfl, hval, ?_⟩
  rw [hval]
  norm_num

/-- C5 (confirmed).  The concrete scenario: image 300x300, scales 0.2 and
0.34, `aspect_ratios=[1.0, 2.0]`, `two_boxes_for_ar1=True`, 10x10 grid,
default step/offset, no clipping, centroids output, no normalization.
Then `n_boxes = 3`, `step_height = step_width = 30`, the offsets default to
0.5, the first center value is 15 and the last 285, box 0 is 60x60, box 1
has width and height `sqrt(0.2*0.34)*300`, and box 2 has width
`0.2*300*sqrt(2)` and height `0.2*300/sqrt(2)`. -/
theorem concrete_scenario_300 :
    nBoxes cfgScenario = 3 ∧
    stepSizes cfgScenario 10 10 = .ok (30, 30) ∧
    offsetVals cfgScenario = (1/2, 1/2) ∧
    (centersFor (1/2) 30 10).getD 0 0 = 15 ∧
    (centersFor (1/2) 30 10).getD 9 0 = 285 ∧
    whList cfgScenario = [((60 : ℝ), (60 : ℝ)),
      (Real.sqrt (0.2 * 0.34) * 300, Real.sqrt (0.2 * 0.34) * 300),
      (0.2 * 300 * Real.sqrt 2, 0.2 * 300 / Real.sqrt 2)] := by
  refine ⟨by norm_num [nBoxes, cfgScenario, isAR1, toRat],
    by norm_num [stepSizes, cfgScenario], rfl, ?_, ?_, ?_⟩
  · rw [centersFor_getD (1/2) 30 10 0 (by norm_num)]; norm_num
  · rw [centersFor_getD (1/2) 30 10 9 (by norm_num)]; norm_num
  · unfold whList whEntry cfgScenario
    push_cast
    norm_num [toRat]

theorem exceptBindError {α β : Type} (e : PyErr) (f : α → Except PyErr β) :
    (Except.error e : Except PyErr α) >>= f = .error e := rfl

theorem exceptThrow {α : Type} (e : PyErr) : (throw e : Except PyErr α) = .error e := rfl

theorem exceptBindOk {α β : Type} (a : α) (f : α → Except PyErr β) :
    (Except.ok a : Except PyErr α) >>= f = f a := rfl

theorem exceptPureOk {α : Type} (a : α) : (pure a : Except PyErr α) = .ok a := rfl

theorem checkCoords_centroids : checkCoords (.str "centroids") = .ok .centroids := rfl

theorem checkSteps_none : checkSteps .pynone = .ok none := rfl

theorem npOf_argARs : npOf (.list [.float 1, .float 2]) = some ⟨[2], [1, 2]⟩ := by
  norm_num [npOf, npOfAll, npStack]

theorem npOf_argVars :
    npOf (.list [.float (1/10), .float (1/10), .float (1/5), .float (1/5)]) =
      some npStdVariances := by
  norm_num [npOf, npOfAll, npStack, npStdVariances, stdVariances]

theorem checkAspectRatios_good :
    checkAspectRatios argARs = .ok [.float 1, .float 2] := by
  norm_num [checkAspectRatios, argARs, pyIsListTuple, pyTruthy, pyItems, npOf_argARs]

theorem checkVariances_good :
    checkVariances argVars = .ok npStdVariances := by
  norm_num [checkVariances, argVars, pyItems, npOf_argVars, npStdVariances, stdVariances]

theorem initWithARs_empty_list : initWithARs (.list []) = .error
    (.valueError "Aspect ratios must be a list or tuple and not empty") := by
  norm_num [initWithARs, init, pyIsInt, pyIsFloat, checkAspectRatios, pyIsListTuple,
    pyTruthy, exceptBindError, exceptBindOk, exceptPureOk]

theorem checkVariances_sized_reject (xs : List PyValue) (v : PyValue)
    (hitems : pyItems v = some xs) (hv : ¬variancesAccepted v) :
    ∃ e, checkVariances v = .error e := by
  by_cases hlen : xs.length = 4
  · cases hq : npOf v with
    | none =>
        exact ⟨.typeError "comparison not supported between these types",
          by simp [checkVariances, hitems, hlen, hq]⟩
    | some arr =>
        cases hany : arr.data.any (fun q => q ≤ 0) with
        | true =>
            exact ⟨.valueError ("All variances must be >0, but the variances given are "
              ++ toString arr.data), by simp [checkVariances, hitems, hlen, hq, hany]⟩
        | false =>
            exfalso
            apply hv
            refine ⟨xs, arr, hitems, hlen, hq, ?_⟩
            intro q hq2
            have h2 := List.any_eq_false.mp hany q hq2
            simp only [decide_eq_true_eq] at h2
            exact not_le.mp h2
  · exact ⟨.valueError (variancesArityMsg xs.length),
      by simp [checkVariances, hitems, hlen]⟩

theorem checkVariances_reject (v : PyValue) (hv : ¬variancesAccepted v) :
    ∃ e, checkVariances v = .error e := by
  cases v with
  | list xs => exact checkVariances_sized_reject xs _ rfl hv
  | tuple xs => exact checkVariances_sized_reject xs _ rfl hv
  | str s => exact ⟨_, rfl⟩
  | int n => exact ⟨_, rfl⟩
  | bool b => exact ⟨_, rfl⟩
  | float q => exact ⟨_, rfl⟩
  | pynone => exact ⟨_, rfl⟩

theorem checkCoords_error (v : PyValue) (hv : ¬recognizedCoords v) :
    ∃ e, checkCoords v = .error e := by
  cases v with
  | str s =>
      simp only [recognizedCoords, not_or] at hv
      obtain ⟨h1, h2, h3⟩ := hv
      have hs1 : ¬(s = "minmax") := fun h => h1 (by rw [h])
      have hs2 : ¬(s = "centroids") := fun h => h2 (by rw [h])
      have hs3 : ¬(s = "corners") := fun h => h3 (by rw [h])
      exact ⟨.valueError "Unexpected value for coords.",
        by simp [checkCoords, hs1, hs2, hs3]⟩
  | int n => exact ⟨_, rfl⟩
  | bool b => exact ⟨_, rfl⟩
  | float q => exact ⟨_, rfl⟩
  | list xs => exact ⟨_, rfl⟩
  | tuple xs => exact ⟨_, rfl⟩
  | pynone => exact ⟨_, rfl⟩

theorem checkSteps_error (v : PyValue) (h1 : v ≠ .pynone) (h2 : ¬scalarOrPair v) :
    ∃ e, checkSteps v = .error e := by
  cases v with
  | pynone => exact absurd rfl h1
  | int n => exact absurd (Or.inl rfl) h2
  | bool b => exact absurd (Or.inl rfl) h2
  | float q => exact absurd (Or.inl rfl) h2
  | str s => exact ⟨_, rfl⟩
  | list xs =>
      have hlen : ¬(xs.length = 2) := fun h => h2 (Or.inr ⟨xs, rfl, h⟩)
      exact ⟨.valueError "This steps must be a 2-int/float list/tuple or a int/float",
        by simp [checkSteps, pyItems, hlen]⟩
  | tuple xs =>
      have hlen : ¬(xs.length = 2) := fun h => h2 (Or.inr ⟨xs, rfl, h⟩)
      exact ⟨.valueError "This steps must be a 2-int/float list/tuple or a int/float",
        by simp [checkSteps, pyItems, hlen]⟩

/-- C9 (corrected).  Construction rejects: an empty `aspect_ratios` list or
tuple; any non-positive scale; any variances argument outside what numpy
accepts (a 4-element list/tuple whose `np.array` is numeric with all
values positive); any unrecognized `coords` value; and any non-`None`
step/offset argument that is neither a number nor a 2-element list/tuple.
The spec's stricter variances clause — rejection whenever the argument
does not consist of exactly 4 positive scalar entries — fails: the
companion counterexample shows `[[1], [2], [3], [4]]` passing
construction. -/
theorem init_rejects_invalid :
    (raises (initWithARs (.list [])) ∧ raises (initWithARs (.tuple []))) ∧
    (∀ q : ℚ, q ≤ 0 → raises (initWithScales (.float q) (.float (17/50)))) ∧
    (∀ q : ℚ, q ≤ 0 → raises (initWithScales (.float (1/5)) (.float q))) ∧
    (∀ v : PyValue, ¬variancesAccepted v → raises (initWithVariances v)) ∧
    (∀ v : PyValue, ¬recognizedCoords v → raises (initWithCoords v)) ∧
    (∀ v : PyValue, v ≠ .pynone → ¬scalarOrPair v → raises (initWithSteps v)) ∧
    (∀ v : PyValue, v ≠ .pynone → ¬scalarOrPair v → raises (initWithOffsets v)) := by
  refine ⟨⟨⟨_, initWithARs_empty_list⟩, ?_⟩, ?_, ?_, ?_, ?_, ?_, ?_⟩
  · exact ⟨.valueError "Aspect ratios must be a list or tuple and not empty",
      by norm_num [initWithARs, init, pyIsInt, pyIsFloat, checkAspectRatios,
        pyIsListTuple, pyTruthy, exceptBindError, exceptBindOk, exceptPureOk]⟩
  · intro q hq
    have hcond : ¬((0 : ℚ) < q ∧ (0 : ℚ) < 17/50) := fun hc => absurd hc.1 (not_lt.mpr hq)
    exact ⟨.valueError ("this_scale and next_scale must be > 0 but this_scale == "
        ++ toString q ++ ", next_scale == " ++ toString (17/50 : ℚ)),
      by norm_num [initWithScales, init, pyIsInt, pyIsFloat, hcond, hq, exceptThrow,
        exceptBindError, exceptBindOk, exceptPureOk]⟩
  · intro q hq
    have hcond : ¬((0 : ℚ) < 1/5 ∧ (0 : ℚ) < q) := fun hc => absurd hc.2 (not_lt.mpr hq)
    exact ⟨.valueError ("this_scale and next_scale must be > 0 but this_scale == "
        ++ toString (1/5 : ℚ) ++ ", next_scale == " ++ toString q),
      by norm_num [initWithScales, init, pyIsInt, pyIsFloat, hcond, hq, exceptThrow,
        exceptBindError, exceptBindOk, exceptPureOk]⟩
  · intro v hv
    obtain ⟨e, he⟩ := checkVariances_reject v hv
    exact ⟨e, by norm_num [initWithVariances, init, pyIsInt, pyIsFloat,
      checkAspectRatios_good, he, exceptBindError, exceptBindOk, exceptPureOk]⟩
  · intro v hv
    obtain ⟨e, he⟩ := checkCoords_error v hv
    exact ⟨e, by norm_num [initWithCoords, init, pyIsInt, pyIsFloat,
      checkAspectRatios_good, checkVariances_good, he,
      exceptBindError, exceptBindOk, exceptPureOk]⟩
  · intro v hne hv
    obtain ⟨e, he⟩ := checkSteps_error v hne hv
    exact ⟨e, by norm_num [initWithSteps, init, pyIsInt, pyIsFloat,
      checkAspectRatios_good, checkVariances_good, checkCoords_centroids, he,
      exceptBindError, exceptBindOk, exceptPureOk]⟩
  · intro v hne hv
    obtain ⟨e, he⟩ := checkSteps_error v hne hv
    exact ⟨e, by norm_num [initWithOffsets, init, pyIsInt, pyIsFloat,
      checkAspectRatios_good, checkVariances_good, checkCoords_centroids, checkSteps_none,
      he, exceptBindError, exceptBindOk, exceptPureOk]⟩

/-- Witness for C9: one concrete rejected input per rejected category. -/
theorem init_rejects_invalid_witness :
    raises (initWithARs (.list [])) ∧
    raises (initWithScales (.float 0) (.float (17/50))) ∧
    raises (initWithScales (.float (1/5)) (.float (-1))) ∧
    raises (initWithVariances (.list [.float (1/10)])) ∧
    raises (initWithCoords (.str "center")) ∧
    raises (initWithSteps (.list [.int 1, .int 2, .int 3])) ∧
    raises (initWithOffsets (.str "x")) :=
  ⟨init_rejects_invalid.1.1,
    init_rejects_invalid.2.1 0 (le_refl 0),
    init_rejects_invalid.2.2.1 (-1) (by norm_num),
    init_rejects_invalid.2.2.2.1 (.list [.float (1/10)])
      (by simp [variancesAccepted, pyItems]),
    init_rejects_invalid.2.2.2.2.1 (.str "center")
      (by simp [recognizedCoords]),
    init_rejects_invalid.2.2.2.2.2.1 (.list [.int 1, .int 2, .int 3])
      (by simp)
      (by simp [scalarOrPair, pyIsNum, pyIsInt, pyIsFloat, pyItems]),
    init_rejects_invalid.2.2.2.2.2.2 (.str "x")
      (by simp)
      (by simp [scalarOrPair, pyIsNum, pyIsInt, pyIsFloat, pyItems])⟩

theorem initWithVariances_eq (v : PyValue) :
    initWithVariances v =
      match checkVariances v with
      | .error e => .error e
      | .ok arr => .ok (goodConfigWith arr) := by
  cases hcv : checkVariances v with
  | error e =>
      norm_num [initWithVariances, init, pyIsInt, pyIsFloat, checkAspectRatios_good,
        hcv, exceptBindError, exceptBindOk, exceptPureOk]
  | ok arr =>
      norm_num [initWithVariances, init, pyIsInt, pyIsFloat, checkAspectRatios_good,
        hcv, checkCoords_centroids, checkSteps_none, checkBool, goodConfigWith,
        exceptBindError, exceptBindOk, exceptPureOk]

/-- Counterexample to C9 as stated: the nested variances argument
`[[1], [2], [3], [4]]` does not consist of 4 positive scalar entries, yet
construction accepts it — `np.array` builds a numeric (4,1) array and the
positivity check passes — and produces a usable instance. -/
theorem init_accepts_nested_variances :
    ¬variancesOK vNested ∧
      initWithVariances vNested = .ok (goodConfigWith ⟨[4, 1], [1, 2, 3, 4]⟩) := by
  constructor
  · rintro ⟨xs, hxs, hlen, hall⟩
    simp only [vNested, pyItems, Option.some.injEq] at hxs
    subst hxs
    obtain ⟨q, hq, -⟩ := hall (.list [.int 1]) (by simp)
    simp [toRat] at hq
  · have hnp : npOf (.list [.list [.int 1], .list [.int 2], .list [.int 3],
        .list [.int 4]]) = some ⟨[4, 1], [1, 2, 3, 4]⟩ := by
      norm_num [npOf, npOfAll, npStack]
    have hcv : checkVariances vNested = .ok ⟨[4, 1], [1, 2, 3, 4]⟩ := by
      norm_num [checkVariances, vNested, pyItems, hnp]
    rw [initWithVariances_eq, hcv]

theorem posMsg_ne_arityMsg (s t : String) :
    ("All variances must be >0, but the variances given are " ++ s) ≠
      ("4 variance values must be passed, but " ++ t) := by
  intro h
  have hd := congrArg String.data h
  rw [String.data_append, String.data_append] at hd
  have h0 := congrArg List.head? hd
  rw [List.head?_append_of_ne_nil _ (by decide),
    List.head?_append_of_ne_nil _ (by decide)] at h0
  simp at h0

/-- C10 (confirmed).  A variances argument that is not a list/tuple and has
no length (such as a single float) makes construction raise the `TypeError`
coming from `len(variances)` inside the error-message `format` call, not
the documented arity `ValueError`; and the documented arity error is only
ever produced for sized arguments that are not 4-element lists/tuples. -/
theorem variances_type_error :
    (∀ q : ℚ, initWithVariances (.float q) = .error (.typeError "object has no len")) ∧
    (∀ v : PyValue, pyIsListTuple v = false →
      pyLen v = .error (.typeError "object has no len") →
      initWithVariances v = .error (.typeError "object has no len")) ∧
    (∀ v : PyValue, ∀ n : ℕ,
      initWithVariances v = .error (.valueError (variancesArityMsg n)) →
      (∃ m, pyLen v = .ok m) ∧ ¬(∃ xs, pyItems v = some xs ∧ xs.length = 4)) := by
  refine ⟨?_, ?_, ?_⟩
  · intro q
    rw [initWithVariances_eq]
    rfl
  · intro v hlt hlen
    rw [initWithVariances_eq]
    cases v with
    | int n => rfl
    | bool b => rfl
    | float q => rfl
    | pynone => rfl
    | str s => simp [pyLen] at hlen
    | list xs => simp [pyIsListTuple] at hlt
    | tuple xs => simp [pyIsListTuple] at hlt
  · intro v n h
    rw [initWithVariances_eq] at h
    cases v with
    | int m => simp [checkVariances, pyItems, pyLen, exceptBindError] at h
    | bool b => simp [checkVariances, pyItems, pyLen, exceptBindError] at h
    | float q => simp [checkVariances, pyItems, pyLen, exceptBindError] at h
    | pynone => simp [checkVariances, pyItems, pyLen, exceptBindError] at h
    | str s =>
        refine ⟨⟨s.length, rfl⟩, ?_⟩
        rintro ⟨xs, hxs, -⟩
        simp [pyItems] at hxs
    | list xs =>
        by_cases hlen : xs.length = 4
        · exfalso
          simp only [checkVariances, pyItems, hlen, if_true] at h
          cases hq : npOf (.list xs) with
          | none => rw [hq] at h; simp at h
          | some arr =>
              rw [hq] at h
              dsimp only at h
              cases hany : arr.data.any (fun q => q ≤ 0) with
              | true =>
                  rw [hany, if_pos rfl] at h
                  simp only [Except.error.injEq, PyErr.valueError.injEq] at h
                  exact posMsg_ne_arityMsg (toString arr.data)
                    (toString n ++ " values were received.")
                    (by simpa [variancesArityMsg, String.append_assoc] using h)
              | false => rw [hany] at h; simp at h
        · refine ⟨⟨xs.length, rfl⟩, ?_⟩
          rintro ⟨ys, hys, hl⟩
          simp only [pyItems, Option.some.injEq] at hys
          exact hlen (hys ▸ hl)
    | tuple xs =>
        by_cases hlen : xs.length = 4
        · exfalso
          simp only [checkVariances, pyItems, hlen, if_true] at h
          cases hq : npOf (.tuple xs) with
          | none => rw [hq] at h; simp at h
          | some arr =>
              rw [hq] at h
              dsimp only at h
              cases hany : arr.data.any (fun q => q ≤ 0) with
              | true =>
                  rw [hany, if_pos rfl] at h
                  simp only [Except.error.injEq, PyErr.valueError.injEq] at h
                  exact posMsg_ne_arityMsg (toString arr.data)
                    (toString n ++ " values were received.")
                    (by simpa [variancesArityMsg, String.append_assoc] using h)
              | false => rw [hany] at h; simp at h
        · refine ⟨⟨xs.length, rfl⟩, ?_⟩
          rintro ⟨ys, hys, hl⟩
          simp only [pyItems, Option.some.injEq] at hys
          exact hlen (hys ▸ hl)

/-- Witness for C10 at the concrete input `variances = 0.1` (a bare float)
and, for the arity direction, at the 2-element list. -/
theorem variances_type_error_witness :
    initWithVariances (.float (1/10)) = .error (.typeError "object has no len") ∧
    initWithVariances (.int 3) = .error (.typeError "object has no len") :=
  ⟨variances_type_error.1 (1/10),
    variances_type_error.2.1 (.int 3) rfl rfl⟩
